import Mathlib

/-!
Verification of the kinghermy-blog repository's specified core.

Two groups of definitions:

1. `remarkModifiedTime` is embedded directly from the JavaScript source
   `src/plugins/remark-modified-time.mjs`.  The effectful calls (`execSync`
   of `git log`, `statSync`) are parametrised by an environment `FsEnv`
   mapping the file path to either a successful result (`some`) or a thrown
   error (`none`), exactly mirroring the try/catch structure of the source.

2. The alfa-scout Wi-Fi tool (command executor, interface state machine,
   survey engine, capture controller, report renderer).  Its Python
   implementation `tools/alfa-scout/alfa_scout.py` is not among the
   provided source files (only its README is), so those components are
   modelled from the specification, as marked on each definition.
-/

/-! ## Part 1: remark-modified-time.mjs (embedded from source) -/

/-- Frontmatter fields of an Astro-processed markdown file.  `lastModified`
is the field the plugin writes; `minutesRead` stands for the other
frontmatter data set by sibling plugins, carried to state frame properties. -/
structure Frontmatter where
  lastModified : Option String
  minutesRead : Option String
deriving Repr, DecidableEq

/-- The `file.data.astro` object. -/
structure AstroData where
  frontmatter : Frontmatter
deriving Repr, DecidableEq

/-- The `file.data` object. -/
structure FileData where
  astro : AstroData
deriving Repr, DecidableEq

/-- The vfile passed to a remark transformer: `history[0]` is the file path. -/
structure VFile where
  history : List String
  data : FileData
deriving Repr, DecidableEq

/-- Environment for the two effectful calls in `remarkModifiedTime`, keyed by
the file path.  `gitLogOut p = some s` means
`execSync("git log -1 --pretty=format:%cI p")` succeeds with stdout `s`;
`none` means it throws.  `statMtimeISO p = some s` means `statSync(p)`
succeeds and `mtime.toISOString()` is `s`; `none` means `statSync` throws. -/
structure FsEnv where
  gitLogOut : String → Option String
  statMtimeISO : String → Option String

/-- Executable model of JavaScript `String.prototype.trim`: drop the
whitespace characters at both ends of the string. -/
def jsTrim (s : String) : String :=
  String.mk (((s.toList.dropWhile Char.isWhitespace).reverse.dropWhile
    Char.isWhitespace).reverse)

/-- Embedded from `src/plugins/remark-modified-time.mjs`: the transformer
returned by `remarkModifiedTime()`.  It reads `file.history[0]`, tries
`git log` first, falls back to `statSync` if git throws, swallows both
errors, and writes `file.data.astro.frontmatter.lastModified` only when the
computed value is truthy in JavaScript (defined and nonempty). -/
def remarkModifiedTime (env : FsEnv) (tree : α) (file : VFile) : α × VFile :=
  let filepath := file.history.headD ""
  let lastModified : Option String :=
    match env.gitLogOut filepath with
    | some result => some (jsTrim result)
    | none => env.statMtimeISO filepath
  match lastModified with
  | some lm =>
      if lm ≠ "" then
        (tree, { file with data.astro.frontmatter.lastModified := some lm })
      else (tree, file)
  | none => (tree, file)

/-! ## Part 2: alfa-scout survey engine (modelled from the spec) -/

/-- A parsed network record of a survey (spec section 3, NetworkRecord). -/
structure NetworkRecord where
  bssid : String
  ssid : String
  freqMHz : Nat
  signal : Int
  security : List String
deriving Repr, DecidableEq

/-- Modelled from the spec: one block of the raw textual scan dump, with
each field either present or missing; `tools/alfa-scout/alfa_scout.py` is
not among the source files.  A block is well-formed when BSSID, frequency
and signal are all present; the SSID may be missing (hidden network). -/
structure RawBlock where
  bssid : Option String
  ssid : Option String
  freqMHz : Option Nat
  signal : Option Int
  security : List String
deriving Repr, DecidableEq

/-- Modelled from the spec: the tolerant block parser, returning the record
for a well-formed block (a missing SSID becomes the empty string) and
`none` for a malformed block, which the survey skips without aborting. -/
def parseBlock (b : RawBlock) : Option NetworkRecord :=
  match b.bssid, b.freqMHz, b.signal with
  | some bs, some f, some s =>
      some { bssid := bs, ssid := b.ssid.getD "", freqMHz := f, signal := s,
             security := b.security }
  | _, _, _ => none

/-- Modelled from the spec: deduplication step for a repeated BSSID.  If a
record with the same BSSID is already retained, keep the entry with the
strongest signal, the most recent one winning ties; otherwise append. -/
def upsert (acc : List NetworkRecord) (r : NetworkRecord) : List NetworkRecord :=
  if acc.any (fun x => x.bssid = r.bssid) then
    acc.map (fun x => if x.bssid = r.bssid then (if x.signal ≤ r.signal then r else x) else x)
  else acc ++ [r]

/-- Modelled from the spec: a single pass over the raw blocks, accumulating
deduplicated records and a count of skipped malformed blocks. -/
def scanFold : List RawBlock → List NetworkRecord → Nat → List NetworkRecord × Nat
  | [], acc, k => (acc, k)
  | b :: rest, acc, k =>
      match parseBlock b with
      | some r => scanFold rest (upsert acc r) k
      | none => scanFold rest acc (k + 1)

/-- Display order of records (spec section 3): signal descending, ties
broken by BSSID ascending.  Boolean total preorder used for sorting. -/
def recLE (a b : NetworkRecord) : Bool :=
  if b.signal < a.signal then true
  else if a.signal = b.signal then decide (a.bssid ≤ b.bssid)
  else false

/-- Strict version of the display order: record `a` must precede record `b`
when `a` has the larger signal, or equal signal and smaller BSSID. -/
def recBefore (a b : NetworkRecord) : Prop :=
  b.signal < a.signal ∨ (a.signal = b.signal ∧ a.bssid < b.bssid)

/-- A survey result: metadata, the ordered records, and the count of
skipped malformed blocks (spec sections 3 and 4.3). -/
structure SurveyResult where
  iface : String
  records : List NetworkRecord
  skipped : Nat
deriving Repr, DecidableEq

/-- Errors of the survey operation (spec section 4.3). -/
inductive SurveyError
  | InterfaceNotFound
  | ScanTimeout
deriving Repr, DecidableEq

/-- Modelled from the spec: parse, deduplicate and sort one raw scan dump
into a `SurveyResult` (spec section 4.3, steps 3 and 4). -/
def runSurvey (ifname : String) (raw : List RawBlock) : SurveyResult :=
  let (recs, skipped) := scanFold raw [] 0
  { iface := ifname, records := recs.mergeSort recLE, skipped := skipped }

/-- Modelled from the spec: the full `survey` operation.  `ifaceExists` is
the result of the interface-existence check; `scan` is `none` when the scan
command timed out and `some raw` with the dump's blocks otherwise. -/
def survey (ifaceExists : Bool) (ifname : String) (scan : Option (List RawBlock)) :
    Except SurveyError SurveyResult :=
  if ifaceExists then
    match scan with
    | some raw => .ok (runSurvey ifname raw)
    | none => .error .ScanTimeout
  else .error .InterfaceNotFound

/-- Modelled from the spec: the row order used by the report renderer, the
same ordering rule as the survey (spec section 4.5), with an optional
top-N restriction defaulting to all records. -/
def renderRows (sr : SurveyResult) (topN : Option Nat) : List NetworkRecord :=
  let sorted := sr.records.mergeSort recLE
  match topN with
  | some n => sorted.take n
  | none => sorted

/-- Modelled from the spec: one markdown table row of the report. -/
def renderRecord (r : NetworkRecord) : String :=
  "| " ++ r.bssid ++ " | " ++ r.ssid ++ " | " ++ toString r.freqMHz ++ " | " ++
    toString r.signal ++ " | " ++ String.intercalate "," r.security ++ " |"

/-- Modelled from the spec: `render`, a pure function from a survey result
to markdown text listing top-N networks by signal (spec section 4.5). -/
def render (sr : SurveyResult) (topN : Option Nat) : String :=
  String.intercalate "\n"
    ("| BSSID | SSID | MHz | dBm | security |" :: (renderRows sr topN).map renderRecord)

/-! ## Part 3: alfa-scout interface state machine (modelled from the spec) -/

/-- Interface modes (spec section 4.2). -/
inductive Mode
  | Managed
  | Monitor
  | Unknown
deriving Repr, DecidableEq

/-- Commands issued to the Command Executor by a mode transition. -/
inductive Cmd
  | queryStatus
  | ifDown
  | setType (m : Mode)
  | ifUp
deriving Repr, DecidableEq

/-- The three steps of a mode transition sequence (spec section 4.2). -/
inductive Step
  | stepDown
  | stepSetType
  | stepUp
deriving Repr, DecidableEq

/-- Administrative state of the wireless interface. -/
structure IfaceState where
  mode : Mode
  isUp : Bool
deriving Repr, DecidableEq

/-- Result of a mode transition (spec section 4.2). -/
inductive TransitionResult
  | success
  | modeTransitionFailed (failing : Step)
deriving Repr, DecidableEq

/-- Modelled from the spec: a mode transition of the interface state
machine; `tools/alfa-scout/alfa_scout.py` is not among the source files.
A status query runs first; when the interface is already in the target
mode the transition is a no-op success issuing no further commands.
Otherwise the sequence down, set type, up runs; `failAt` says which steps
the executor fails.  On a failing step the machine performs the
best-effort rollback of spec section 4.2 (restore the original type and
bring the interface back up) and reports the failing step. -/
def setMode (st : IfaceState) (tgt : Mode) (failAt : Step → Bool) :
    IfaceState × List Cmd × TransitionResult :=
  if st.mode = tgt then (st, [.queryStatus], .success)
  else if failAt .stepDown then
    (st, [.queryStatus, .ifDown], .modeTransitionFailed .stepDown)
  else if failAt .stepSetType then
    ({ mode := st.mode, isUp := true },
     [.queryStatus, .ifDown, .setType tgt, .setType st.mode, .ifUp],
     .modeTransitionFailed .stepSetType)
  else if failAt .stepUp then
    ({ mode := st.mode, isUp := true },
     [.queryStatus, .ifDown, .setType tgt, .ifUp, .setType st.mode, .ifUp],
     .modeTransitionFailed .stepUp)
  else
    ({ mode := tgt, isUp := true }, [.queryStatus, .ifDown, .setType tgt, .ifUp], .success)

/-- Modelled from the spec: the `monitor-on` operation. -/
def monitorOn (st : IfaceState) (failAt : Step → Bool) :
    IfaceState × List Cmd × TransitionResult :=
  setMode st .Monitor failAt

/-- Modelled from the spec: the `monitor-off` operation. -/
def monitorOff (st : IfaceState) (failAt : Step → Bool) :
    IfaceState × List Cmd × TransitionResult :=
  setMode st .Managed failAt

/-- A command is an interface transition command (down, up, or set type),
as opposed to a pure status query. -/
def Cmd.isTransition : Cmd → Bool
  | .queryStatus => false
  | .ifDown => true
  | .setType _ => true
  | .ifUp => true

/-! ## Part 4: alfa-scout command executor and capture controller
(modelled from the spec) -/

/-- Behaviour of one child process, as the executor's environment sees it:
when it would exit on its own, with which code and output, and whether the
program is resolvable on the search path (spec section 4.1). -/
structure ProcSpec where
  resolvable : Bool
  exitsAt : Nat
  exitCode : Nat
  stdout : String
  stderr : String
deriving Repr, DecidableEq

/-- Status returned by the executor's `run` (spec section 4.1). -/
inductive RunStatus
  | completed (exitCode : Nat)
  | timedOut
  | toolNotFound
deriving Repr, DecidableEq

/-- Outcome of the executor's `run`: status, captured output, and whether
the child process has been reaped when the call returns. -/
structure RunOutcome where
  status : RunStatus
  childTerminated : Bool
  stdout : String
  stderr : String
deriving Repr, DecidableEq

/-- Modelled from the spec: the Command Executor's `run` with an optional
timeout (spec section 4.1); `tools/alfa-scout/alfa_scout.py` is not among
the source files.  Exceeding the timeout forcibly terminates the child and
returns the explicit `timedOut` status; the function is total, it never
throws. -/
def run (p : ProcSpec) (timeout : Option Nat) : RunOutcome :=
  if ¬p.resolvable then
    { status := .toolNotFound, childTerminated := true, stdout := "", stderr := "" }
  else
    match timeout with
    | some t =>
        if t < p.exitsAt then
          { status := .timedOut, childTerminated := true,
            stdout := p.stdout, stderr := p.stderr }
        else
          { status := .completed p.exitCode, childTerminated := true,
            stdout := p.stdout, stderr := p.stderr }
    | none =>
        { status := .completed p.exitCode, childTerminated := true,
          stdout := p.stdout, stderr := p.stderr }

/-- Status of a capture session (spec section 3). -/
inductive CaptureStatus
  | Pending
  | Running
  | Completed
  | Cancelled
  | Failed
deriving Repr, DecidableEq

/-- Failure reasons of a capture session (spec sections 4.4 and 7). -/
inductive FailReason
  | ChannelSetFailed
  | CaptureFailed
deriving Repr, DecidableEq

/-- Environment of one capture session: whether the channel-set command
succeeds, when the capture subprocess would exit on its own (`none` for
never), its exit code, when an external cancellation signal arrives
(`none` for never), and whether the process honours graceful termination
within the grace period. -/
structure CaptureEnv where
  channelSetOk : Bool
  procExitsAt : Option Nat
  procExitCode : Nat
  cancelAt : Option Nat
  gracefulStopWorks : Bool
deriving Repr, DecidableEq

/-- Grace period the controller waits after a graceful termination request
before escalating to a forced kill (spec section 4.4). -/
def gracePeriod : Nat := 5

/-- Final state of one capture session as observed by the caller. -/
structure CaptureOutcome where
  status : CaptureStatus
  reason : Option FailReason
  endTime : Nat
  launched : Bool
  procRunning : Bool
  handlesReleased : Bool
  fileClosed : Bool
  fileValid : Bool
  timedOut : Bool
deriving Repr, DecidableEq

/-- Modelled from the spec: the time at which the capture subprocess exits
naturally, when that happens within the deadline `D`. -/
def natExitIn (D : Nat) (env : CaptureEnv) : Option Nat :=
  match env.procExitsAt with
  | some n => if n ≤ D then some n else none
  | none => none

/-- Modelled from the spec: the time at which the external cancellation
signal arrives, when it does so strictly before the deadline `D`. -/
def cancelIn (D : Nat) (env : CaptureEnv) : Option Nat :=
  match env.cancelAt with
  | some c => if c < D then some c else none
  | none => none

/-- Modelled from the spec: the fail-fast outcome of a failed channel-set
command; the capture subprocess is never launched. -/
def channelFailOutcome : CaptureOutcome :=
  { status := .Failed, reason := some .ChannelSetFailed, endTime := 0,
    launched := false, procRunning := false, handlesReleased := true,
    fileClosed := true, fileValid := false, timedOut := false }

/-- Modelled from the spec: the outcome when the subprocess exits on its
own at time `n` before the deadline: Completed on a zero exit status,
Failed with reason CaptureFailed otherwise. -/
def natExitOutcome (env : CaptureEnv) (n : Nat) : CaptureOutcome :=
  { status := if env.procExitCode = 0 then .Completed else .Failed,
    reason := if env.procExitCode = 0 then none else some .CaptureFailed,
    endTime := n, launched := true, procRunning := false,
    handlesReleased := true, fileClosed := true,
    fileValid := env.procExitCode = 0, timedOut := false }

/-- Modelled from the spec: the outcome of an external cancellation at
time `c`: the child is terminated and the output file flushed and closed,
leaving a valid capture file. -/
def cancelOutcome (c : Nat) : CaptureOutcome :=
  { status := .Cancelled, reason := none, endTime := c, launched := true,
    procRunning := false, handlesReleased := true, fileClosed := true,
    fileValid := true, timedOut := false }

/-- Modelled from the spec: the outcome of deadline expiry: a graceful
termination request, escalated to a forced kill after the grace period if
the process does not stop; this CaptureTimedOut path is a success. -/
def deadlineOutcome (D : Nat) (env : CaptureEnv) : CaptureOutcome :=
  { status := .Completed, reason := none,
    endTime := if env.gracefulStopWorks then D else D + gracePeriod,
    launched := true, procRunning := false, handlesReleased := true,
    fileClosed := true, fileValid := true, timedOut := true }

/-- Modelled from the spec: the Capture Controller's `capture` for a
requested duration `D` (spec section 4.4); `tools/alfa-scout/alfa_scout.py`
is not among the source files.  The channel constraint, when requested, is
applied before launching; if it fails the session fails fast with reason
`ChannelSetFailed` and the capture subprocess is never launched.  While
running, the earliest of natural subprocess exit, external cancellation and
the deadline drives the transition: natural exit completes or fails by exit
code; cancellation terminates the child and closes the output file; the
deadline issues a graceful termination, escalating to a forced kill after
the grace period, and counts as the `CaptureTimedOut` success path. -/
def capture (D : Nat) (channel : Option Nat) (env : CaptureEnv) : CaptureOutcome :=
  if channel.isSome ∧ ¬env.channelSetOk then
    channelFailOutcome
  else
    match natExitIn D env, cancelIn D env with
    | some n, some c => if n ≤ c then natExitOutcome env n else cancelOutcome c
    | some n, none => natExitOutcome env n
    | none, some c => cancelOutcome c
    | none, none => deadlineOutcome D env

/-! ## Lemmas about the display order -/

/-- Characterisation of the boolean display order. -/
theorem recLE_iff (a b : NetworkRecord) :
    recLE a b = true ↔ (b.signal < a.signal ∨ (a.signal = b.signal ∧ a.bssid ≤ b.bssid)) := by
  unfold recLE
  by_cases h1 : b.signal < a.signal
  · simp [h1]
  · by_cases h2 : a.signal = b.signal
    · simp [h1, h2]
    · simp [h1, h2]

/-- The display order is transitive. -/
theorem recLE_trans (a b c : NetworkRecord) (h1 : recLE a b = true) (h2 : recLE b c = true) :
    recLE a c = true := by
  rw [recLE_iff] at h1 h2 ⊢
  rcases h1 with h1 | ⟨h1e, h1b⟩ <;> rcases h2 with h2 | ⟨h2e, h2b⟩
  · exact Or.inl (by omega)
  · exact Or.inl (by omega)
  · exact Or.inl (by omega)
  · exact Or.inr ⟨by omega, le_trans h1b h2b⟩

/-- The display order is total. -/
theorem recLE_total (a b : NetworkRecord) : recLE a b || recLE b a := by
  rcases lt_trichotomy a.signal b.signal with h | h | h
  · have hb : recLE b a = true := (recLE_iff b a).mpr (Or.inl h)
    simp [hb]
  · rcases le_total a.bssid b.bssid with hb | hb
    · have ha : recLE a b = true := (recLE_iff a b).mpr (Or.inr ⟨h, hb⟩)
      simp [ha]
    · have ha : recLE b a = true := (recLE_iff b a).mpr (Or.inr ⟨h.symm, hb⟩)
      simp [ha]
  · have ha : recLE a b = true := (recLE_iff a b).mpr (Or.inl h)
    simp [ha]

/-! ## Lemmas about deduplication and the scan fold -/

/-- Replacing a retained record by an upsert never changes its BSSID. -/
theorem upsert_bssids (acc : List NetworkRecord) (r : NetworkRecord)
    (hany : acc.any (fun x => x.bssid = r.bssid) = true) :
    (upsert acc r).map (fun x => x.bssid) = acc.map (fun x => x.bssid) := by
  unfold upsert
  rw [if_pos hany, List.map_map]
  apply List.map_congr_left
  intro x _
  by_cases h1 : x.bssid = r.bssid
  · by_cases h2 : x.signal ≤ r.signal <;> simp [h1, h2]
  · simp [h1]

/-- Upsert preserves uniqueness of retained BSSIDs. -/
theorem upsert_nodup (acc : List NetworkRecord) (r : NetworkRecord)
    (h : (acc.map (fun x => x.bssid)).Nodup) :
    ((upsert acc r).map (fun x => x.bssid)).Nodup := by
  by_cases hany : acc.any (fun x => x.bssid = r.bssid) = true
  · rw [upsert_bssids acc r hany]
    exact h
  · unfold upsert
    rw [if_neg hany]
    simp only [List.any_eq_true, decide_eq_true_eq, not_exists, not_and] at hany
    simp only [List.map_append, List.map_cons, List.map_nil]
    rw [List.nodup_append]
    refine ⟨h, List.nodup_singleton _, ?_⟩
    intro y hy hy1
    simp only [List.mem_singleton] at hy1
    obtain ⟨x, hx, hxb⟩ := List.mem_map.mp hy
    exact hany x hx (hxb.trans hy1)

/-- Every record already retained stays covered by an upsert: a record with
the same BSSID and at least its signal remains in the list. -/
theorem upsert_covers (acc : List NetworkRecord) (r x : NetworkRecord) (hx : x ∈ acc) :
    ∃ y ∈ upsert acc r, y.bssid = x.bssid ∧ x.signal ≤ y.signal := by
  unfold upsert
  by_cases hany : acc.any (fun z => z.bssid = r.bssid) = true
  · rw [if_pos hany]
    refine ⟨if x.bssid = r.bssid then (if x.signal ≤ r.signal then r else x) else x,
      List.mem_map_of_mem _ hx, ?_⟩
    by_cases h1 : x.bssid = r.bssid
    · by_cases h2 : x.signal ≤ r.signal
      · simp [h1, h2]
      · simp [h1, h2]
    · simp [h1]
  · rw [if_neg hany]
    exact ⟨x, List.mem_append_left _ hx, rfl, le_refl _⟩

/-- The upserted record itself is covered: a record with its BSSID and at
least its signal is in the resulting list. -/
theorem upsert_covers_new (acc : List NetworkRecord) (r : NetworkRecord) :
    ∃ y ∈ upsert acc r, y.bssid = r.bssid ∧ r.signal ≤ y.signal := by
  unfold upsert
  by_cases hany : acc.any (fun z => z.bssid = r.bssid) = true
  · rw [if_pos hany]
    simp only [List.any_eq_true, decide_eq_true_eq] at hany
    obtain ⟨x, hx, hxb⟩ := hany
    refine ⟨if x.bssid = r.bssid then (if x.signal ≤ r.signal then r else x) else x,
      List.mem_map_of_mem _ hx, ?_⟩
    by_cases h2 : x.signal ≤ r.signal
    · simp [hxb, h2]
    · rw [if_pos hxb, if_neg h2]
      exact ⟨hxb, le_of_not_le h2⟩
  · rw [if_neg hany]
    exact ⟨r, List.mem_append_right _ (List.mem_singleton_self r), rfl, le_refl _⟩

/-- The scan fold preserves uniqueness of retained BSSIDs. -/
theorem scanFold_nodup (raw : List RawBlock) :
    ∀ (acc : List NetworkRecord) (k : Nat), (acc.map (fun x => x.bssid)).Nodup →
      (((scanFold raw acc k).1).map (fun x => x.bssid)).Nodup := by
  induction raw with
  | nil => intro acc k h; exact h
  | cons b rest ih =>
      intro acc k h
      cases hp : parseBlock b with
      | some r =>
          simp only [scanFold, hp]
          exact ih _ _ (upsert_nodup acc r h)
      | none =>
          simp only [scanFold, hp]
          exact ih _ _ h

/-- Records in the accumulator stay covered through the scan fold. -/
theorem scanFold_covers_acc (raw : List RawBlock) :
    ∀ (acc : List NetworkRecord) (k : Nat) (x : NetworkRecord), x ∈ acc →
      ∃ y ∈ (scanFold raw acc k).1, y.bssid = x.bssid ∧ x.signal ≤ y.signal := by
  induction raw with
  | nil => intro acc k x hx; exact ⟨x, hx, rfl, le_refl _⟩
  | cons b rest ih =>
      intro acc k x hx
      cases hp : parseBlock b with
      | some r =>
          simp only [scanFold, hp]
          obtain ⟨y, hy, hyb, hys⟩ := upsert_covers acc r x hx
          obtain ⟨z, hz, hzb, hzs⟩ := ih (upsert acc r) k y hy
          exact ⟨z, hz, hzb.trans hyb, le_trans hys hzs⟩
      | none =>
          simp only [scanFold, hp]
          exact ih acc (k + 1) x hx

/-- Every well-formed block of the dump is covered by the scan fold: some
retained record has its BSSID and at least its signal. -/
theorem scanFold_covers_block (raw : List RawBlock) :
    ∀ (acc : List NetworkRecord) (k : Nat) (b : RawBlock), b ∈ raw →
      ∀ p, parseBlock b = some p →
        ∃ y ∈ (scanFold raw acc k).1, y.bssid = p.bssid ∧ p.signal ≤ y.signal := by
  induction raw with
  | nil => intro acc k b hb; exact absurd hb (List.not_mem_nil b)
  | cons b0 rest ih =>
      intro acc k b hb p hp
      rcases List.mem_cons.mp hb with rfl | hbr
      · simp only [scanFold, hp]
        obtain ⟨y, hy, hyb, hys⟩ := upsert_covers_new acc p
        obtain ⟨z, hz, hzb, hzs⟩ := scanFold_covers_acc rest (upsert acc p) k y hy
        exact ⟨z, hz, hzb.trans hyb, le_trans hys hzs⟩
      · cases hp0 : parseBlock b0 with
        | some r =>
            simp only [scanFold, hp0]
            exact ih _ _ b hbr p hp
        | none =>
            simp only [scanFold, hp0]
            exact ih _ _ b hbr p hp

/-- The skipped counter of the scan fold counts the malformed blocks. -/
theorem scanFold_skipped (raw : List RawBlock) :
    ∀ (acc : List NetworkRecord) (k : Nat),
      (scanFold raw acc k).2 = k + raw.countP (fun b => (parseBlock b).isNone) := by
  induction raw with
  | nil => intro acc k; simp [scanFold]
  | cons b rest ih =>
      intro acc k
      cases hp : parseBlock b with
      | some r =>
          simp only [scanFold, hp, List.countP_cons]
          rw [ih]
          simp [hp]
      | none =>
          simp only [scanFold, hp, List.countP_cons]
          rw [ih]
          simp [hp]
          omega

/-- A dump whose blocks are all malformed yields no records. -/
theorem scanFold_all_malformed (raw : List RawBlock) :
    ∀ (acc : List NetworkRecord) (k : Nat), (∀ b ∈ raw, parseBlock b = none) →
      (scanFold raw acc k).1 = acc := by
  induction raw with
  | nil => intro acc k _; rfl
  | cons b rest ih =>
      intro acc k h
      have hb := h b (List.mem_cons_self b rest)
      simp only [scanFold, hb]
      exact ih acc (k + 1) (fun b' hb' => h b' (List.mem_cons_of_mem b hb'))

/-- Sorting a list of records with unique BSSIDs by the display order makes
the strict display order hold pairwise. -/
theorem mergeSort_pairwise_recBefore (l : List NetworkRecord)
    (h : (l.map (fun x => x.bssid)).Nodup) :
    (l.mergeSort recLE).Pairwise recBefore := by
  have hsorted : (l.mergeSort recLE).Pairwise (fun a b => recLE a b = true) :=
    List.sorted_mergeSort recLE_trans recLE_total l
  have hperm : List.Perm ((l.mergeSort recLE).map (fun x => x.bssid))
      (l.map (fun x => x.bssid)) :=
    (List.mergeSort_perm l recLE).map _
  have hnodup : ((l.mergeSort recLE).map (fun x => x.bssid)).Nodup :=
    hperm.nodup_iff.mpr h
  have hne : (l.mergeSort recLE).Pairwise (fun a b => ¬(a.bssid = b.bssid)) :=
    List.pairwise_map.mp hnodup
  refine (hsorted.and hne).imp ?_
  intro a b hab
  obtain ⟨hle, hneq⟩ := hab
  rcases (recLE_iff a b).mp hle with h1 | ⟨h2, h3⟩
  · exact Or.inl h1
  · exact Or.inr ⟨h2, lt_of_le_of_ne h3 hneq⟩

/-- Unfolding lemma: the records of a survey are the sorted fold output. -/
theorem runSurvey_records (ifname : String) (raw : List RawBlock) :
    (runSurvey ifname raw).records = ((scanFold raw [] 0).1).mergeSort recLE := rfl

/-- Unfolding lemma: the skipped count of a survey is the fold's counter. -/
theorem runSurvey_skipped (ifname : String) (raw : List RawBlock) :
    (runSurvey ifname raw).skipped = (scanFold raw [] 0).2 := rfl

/-! ## Example scan data (spec section 8, scenarios 1 and 4) -/

/-- A well-formed block for BSSID `AA:BB:CC:DD:EE:01` at signal -40. -/
def blockA1 : RawBlock :=
  { bssid := some "AA:BB:CC:DD:EE:01", ssid := some "labnet", freqMHz := some 2437,
    signal := some (-40), security := ["WPA2"] }

/-- A well-formed hidden-network block for BSSID `AA:BB:CC:DD:EE:02`. -/
def blockA2 : RawBlock :=
  { bssid := some "AA:BB:CC:DD:EE:02", ssid := none, freqMHz := some 5180,
    signal := some (-70), security := [] }

/-- A repeat of BSSID `AA:BB:CC:DD:EE:01` at the weaker signal -55. -/
def blockA1weak : RawBlock :=
  { bssid := some "AA:BB:CC:DD:EE:01", ssid := some "labnet", freqMHz := some 2437,
    signal := some (-55), security := ["WPA2"] }

/-- A malformed block: BSSID, frequency and signal are all missing. -/
def blockBad : RawBlock :=
  { bssid := none, ssid := some "ghost", freqMHz := none, signal := none, security := [] }

/-- The raw dump of scenario 4: three valid blocks, one of them repeating a
BSSID, plus one malformed block. -/
def exRawDump : List RawBlock := [blockA1, blockA2, blockA1weak, blockBad]

/-- The record parsed from `blockA1weak`. -/
def recA1weak : NetworkRecord :=
  { bssid := "AA:BB:CC:DD:EE:01", ssid := "labnet", freqMHz := 2437, signal := -55,
    security := ["WPA2"] }

/-- The record parsed from `blockA2` (hidden network, SSID becomes ""). -/
def recA2 : NetworkRecord :=
  { bssid := "AA:BB:CC:DD:EE:02", ssid := "", freqMHz := 5180, signal := -70,
    security := [] }

/-- A concrete survey result consumed by the renderer in witnesses. -/
def exSurveyResult : SurveyResult :=
  { iface := "wlan0",
    records := [recA2, { bssid := "AA:BB:CC:DD:EE:01", ssid := "labnet", freqMHz := 2437,
                         signal := -40, security := ["WPA2"] }],
    skipped := 0 }

/-! ## Claim theorems for the survey engine -/

/-- C1: in every SurveyResult produced by the survey operation, and in the
row order the renderer uses on a SurveyResult satisfying the unique-BSSID
invariant, every pair of records is ordered by signal descending with ties
broken by lexicographically ascending BSSID, so the sorting is
deterministic: a record with the larger signal precedes one with a smaller
signal, and of two records with equal signal the one with the smaller
BSSID precedes the other. -/
theorem survey_render_sorted (ifname : String) (raw : List RawBlock) :
    (runSurvey ifname raw).records.Pairwise recBefore ∧
    (∀ (sr : SurveyResult) (topN : Option Nat),
      (sr.records.map (fun x => x.bssid)).Nodup →
      (renderRows sr topN).Pairwise recBefore) := by
  constructor
  · rw [runSurvey_records]
    exact mergeSort_pairwise_recBefore _ (scanFold_nodup raw [] 0 (by simp))
  · intro sr topN h
    have hs := mergeSort_pairwise_recBefore sr.records h
    unfold renderRows
    cases topN with
    | some n => exact List.Pairwise.sublist (List.take_sublist n _) hs
    | none => exact hs

/-- Witness for C1 at the concrete dump of scenario 4 and a concrete
survey result with distinct BSSIDs. -/
theorem survey_render_sorted_witness :
    (runSurvey "wlan0" exRawDump).records.Pairwise recBefore ∧
    (renderRows exSurveyResult (some 5)).Pairwise recBefore := by
  obtain ⟨h1, h2⟩ := survey_render_sorted "wlan0" exRawDump
  exact ⟨h1, h2 exSurveyResult (some 5) (by decide)⟩

/-- C2: for every raw scan dump, also when a BSSID repeats across blocks,
the survey's records carry unique BSSIDs, and for every well-formed block
of the dump the retained record with its BSSID has at least its signal, so
a repeated BSSID keeps the strongest entry (ties going to the most recent,
by the upsert rule). -/
theorem survey_unique_bssid_strongest (ifname : String) (raw : List RawBlock) :
    ((runSurvey ifname raw).records.map (fun x => x.bssid)).Nodup ∧
    (∀ b ∈ raw, ∀ p, parseBlock b = some p →
      ∃ y ∈ (runSurvey ifname raw).records, y.bssid = p.bssid ∧ p.signal ≤ y.signal) := by
  constructor
  · rw [runSurvey_records]
    have h := scanFold_nodup raw [] 0 (by simp)
    have hperm : List.Perm ((((scanFold raw [] 0).1).mergeSort recLE).map (fun x => x.bssid))
        (((scanFold raw [] 0).1).map (fun x => x.bssid)) :=
      (List.mergeSort_perm _ recLE).map _
    exact hperm.nodup_iff.mpr h
  · intro b hb p hp
    obtain ⟨y, hy, hyb, hys⟩ := scanFold_covers_block raw [] 0 b hb p hp
    rw [runSurvey_records]
    exact ⟨y, List.mem_mergeSort.mpr hy, hyb, hys⟩

/-- Witness for C2: in the scenario-4 dump the BSSID `AA:BB:CC:DD:EE:01`
repeats at signals -40 and -55; the survey keeps unique BSSIDs and retains
a record at that BSSID with signal at least -55 (the stronger -40 one). -/
theorem survey_unique_bssid_strongest_witness :
    ((runSurvey "wlan0" exRawDump).records.map (fun x => x.bssid)).Nodup ∧
    ∃ y ∈ (runSurvey "wlan0" exRawDump).records,
      y.bssid = recA1weak.bssid ∧ recA1weak.signal ≤ y.signal := by
  obtain ⟨h1, h2⟩ := survey_unique_bssid_strongest "wlan0" exRawDump
  exact ⟨h1, h2 blockA1weak (by decide) recA1weak rfl⟩

/-- C3: the survey never aborts on malformed blocks: on any dump it
returns a successful result whose skipped count equals the number of
malformed blocks, every well-formed block still contributes its BSSID to
the records, and a dump with no well-formed block yields the empty record
sequence as a successful (non-error) result. -/
theorem survey_tolerates_malformed (ifname : String) (raw : List RawBlock) :
    survey true ifname (some raw) = .ok (runSurvey ifname raw) ∧
    (runSurvey ifname raw).skipped = raw.countP (fun b => (parseBlock b).isNone) ∧
    (∀ b ∈ raw, ∀ p, parseBlock b = some p →
      ∃ y ∈ (runSurvey ifname raw).records, y.bssid = p.bssid) ∧
    ((∀ b ∈ raw, parseBlock b = none) → (runSurvey ifname raw).records = []) := by
  refine ⟨rfl, ?_, ?_, ?_⟩
  · rw [runSurvey_skipped, scanFold_skipped raw [] 0, Nat.zero_add]
  · intro b hb p hp
    obtain ⟨y, hy, hyb, _⟩ := scanFold_covers_block raw [] 0 b hb p hp
    rw [runSurvey_records]
    exact ⟨y, List.mem_mergeSort.mpr hy, hyb⟩
  · intro h
    rw [runSurvey_records, scanFold_all_malformed raw [] 0 h]
    simp

/-- Witness for C3 at scenario 4: one malformed block among three valid
ones yields a successful survey with exactly the two valid-minus-duplicate
records and a skipped count of 1. -/
theorem survey_tolerates_malformed_witness :
    survey true "wlan0" (some exRawDump) = .ok (runSurvey "wlan0" exRawDump) ∧
    (runSurvey "wlan0" exRawDump).skipped = 1 ∧
    (runSurvey "wlan0" exRawDump).records.length = 2 ∧
    ∃ y ∈ (runSurvey "wlan0" exRawDump).records, y.bssid = recA2.bssid := by
  obtain ⟨h1, h2, h3, _⟩ := survey_tolerates_malformed "wlan0" exRawDump
  refine ⟨h1, ?_, ?_, h3 blockA2 (by decide) recA2 rfl⟩
  · rw [h2]; decide
  · rw [runSurvey_records, List.length_mergeSort]
    decide

/-! ## Claim theorems for the interface state machine -/

/-- C4: a monitor-on invocation on an interface already in Monitor mode is
a no-op success: the status query runs first and no down, up or set-type
command is issued; symmetrically for monitor-off in Managed mode.  When a
monitor-on succeeds the interface is in Monitor mode, so a second
monitor-on right after a first (failure-free) one is a no-op success and
the interface is in Monitor mode after both calls. -/
theorem monitorOn_idempotent (st : IfaceState) (failAt : Step → Bool) :
    (st.mode = .Monitor →
      monitorOn st failAt = (st, [Cmd.queryStatus], .success) ∧
      ∀ c ∈ (monitorOn st failAt).2.1, c.isTransition = false) ∧
    (st.mode = .Managed → monitorOff st failAt = (st, [Cmd.queryStatus], .success)) ∧
    ((monitorOn st failAt).2.2 = .success → (monitorOn st failAt).1.mode = .Monitor) ∧
    ((monitorOn st (fun _ => false)).1.mode = .Monitor ∧
      monitorOn ((monitorOn st (fun _ => false)).1) (fun _ => false) =
        ((monitorOn st (fun _ => false)).1, [Cmd.queryStatus], .success)) := by
  refine ⟨?_, ?_, ?_, ?_, ?_⟩
  · intro h
    constructor
    · unfold monitorOn setMode
      rw [if_pos h]
    · unfold monitorOn setMode
      rw [if_pos h]
      intro c hc
      simp only [List.mem_singleton] at hc
      subst hc
      rfl
  · intro h
    unfold monitorOff setMode
    rw [if_pos h]
  · intro h
    unfold monitorOn setMode at h ⊢
    by_cases h0 : st.mode = Mode.Monitor
    · rw [if_pos h0] at h ⊢
      exact h0
    · rw [if_neg h0] at h ⊢
      by_cases h1 : failAt Step.stepDown
      · rw [if_pos h1] at h
        exact absurd h (by simp)
      · rw [if_neg h1] at h ⊢
        by_cases h2 : failAt Step.stepSetType
        · rw [if_pos h2] at h
          exact absurd h (by simp)
        · rw [if_neg h2] at h ⊢
          by_cases h3 : failAt Step.stepUp
          · rw [if_pos h3] at h
            exact absurd h (by simp)
          · rw [if_neg h3]
  · unfold monitorOn setMode
    by_cases h0 : st.mode = Mode.Monitor
    · rw [if_pos h0]
      exact h0
    · rw [if_neg h0]
      simp
  · unfold monitorOn setMode
    by_cases h0 : st.mode = Mode.Monitor
    · rw [if_pos h0, if_pos h0]
    · rw [if_neg h0]
      simp

/-- Witness for C4 at a concrete interface state in Monitor mode (for the
no-op clauses) and Managed mode (for the double-invocation clause). -/
theorem monitorOn_idempotent_witness :
    (monitorOn { mode := .Monitor, isUp := true } (fun _ => false) =
      ({ mode := .Monitor, isUp := true }, [Cmd.queryStatus], .success)) ∧
    (monitorOff { mode := .Managed, isUp := true } (fun _ => false) =
      ({ mode := .Managed, isUp := true }, [Cmd.queryStatus], .success)) ∧
    (monitorOn ({ mode := .Managed, isUp := true } : IfaceState) (fun _ => false)).1.mode
      = .Monitor ∧
    monitorOn ((monitorOn { mode := .Managed, isUp := true } (fun _ => false)).1)
        (fun _ => false) =
      ((monitorOn { mode := .Managed, isUp := true } (fun _ => false)).1,
        [Cmd.queryStatus], .success) := by
  obtain ⟨h1, h2, _, h4, h5⟩ :=
    monitorOn_idempotent { mode := .Managed, isUp := true } (fun _ => false)
  obtain ⟨h1', _, _, _, _⟩ :=
    monitorOn_idempotent { mode := .Monitor, isUp := true } (fun _ => false)
  exact ⟨(h1' rfl).1, h2 rfl, h4, h5⟩

/-- C5: a mode transition on an interface that is up never leaves it
administratively down: on any failing step the machine rolls back to the
original mode with the interface up and reports `ModeTransitionFailed`
naming the step that actually failed (never swallowing the failure), and a
success result means either the transition was a no-op or no step failed. -/
theorem setMode_failure_policy (st : IfaceState) (tgt : Mode) (failAt : Step → Bool)
    (hup : st.isUp = true) :
    (setMode st tgt failAt).1.isUp = true ∧
    (∀ s, (setMode st tgt failAt).2.2 = .modeTransitionFailed s →
      (setMode st tgt failAt).1.mode = st.mode ∧ failAt s = true) ∧
    ((setMode st tgt failAt).2.2 = .success →
      st.mode = tgt ∨
        (failAt .stepDown = false ∧ failAt .stepSetType = false ∧ failAt .stepUp = false)) := by
  unfold setMode
  by_cases h0 : st.mode = tgt
  · rw [if_pos h0]
    exact ⟨hup, fun s hs => absurd hs (by simp), fun _ => Or.inl h0⟩
  · rw [if_neg h0]
    by_cases h1 : failAt Step.stepDown
    · rw [if_pos h1]
      refine ⟨hup, ?_, ?_⟩
      · intro s hs
        simp only [TransitionResult.modeTransitionFailed.injEq] at hs
        subst hs
        exact ⟨rfl, h1⟩
      · intro hs
        exact absurd hs (by simp)
    · rw [if_neg h1]
      by_cases h2 : failAt Step.stepSetType
      · rw [if_pos h2]
        refine ⟨rfl, ?_, ?_⟩
        · intro s hs
          simp only [TransitionResult.modeTransitionFailed.injEq] at hs
          subst hs
          exact ⟨rfl, h2⟩
        · intro hs
          exact absurd hs (by simp)
      · rw [if_neg h2]
        by_cases h3 : failAt Step.stepUp
        · rw [if_pos h3]
          refine ⟨rfl, ?_, ?_⟩
          · intro s hs
            simp only [TransitionResult.modeTransitionFailed.injEq] at hs
            subst hs
            exact ⟨rfl, h3⟩
          · intro hs
            exact absurd hs (by simp)
        · rw [if_neg h3]
          refine ⟨rfl, fun s hs => absurd hs (by simp), ?_⟩
          intro _
          exact Or.inr ⟨Bool.eq_false_iff.mpr h1, Bool.eq_false_iff.mpr h2,
            Bool.eq_false_iff.mpr h3⟩

/-- Witness for C5: a monitor transition from Managed whose set-type step
fails rolls back to Managed with the interface up and reports the failing
step. -/
theorem setMode_failure_policy_witness :
    (setMode { mode := .Managed, isUp := true } .Monitor
      (fun s => decide (s = Step.stepSetType))).1.isUp = true ∧
    (setMode { mode := .Managed, isUp := true } .Monitor
      (fun s => decide (s = Step.stepSetType))).1.mode = .Managed ∧
    decide ((Step.stepSetType : Step) = Step.stepSetType) = true := by
  obtain ⟨h1, h2, _⟩ := setMode_failure_policy { mode := .Managed, isUp := true } .Monitor
    (fun s => decide (s = Step.stepSetType)) rfl
  obtain ⟨hmode, hfail⟩ := h2 Step.stepSetType (by decide)
  exact ⟨h1, hmode, hfail⟩

/-! ## Claim theorems for the capture controller and command executor -/

/-- A natural exit within the deadline happens no later than the deadline. -/
theorem natExitIn_le (D : Nat) (env : CaptureEnv) (n : Nat)
    (h : natExitIn D env = some n) : n ≤ D := by
  unfold natExitIn at h
  split at h
  · rename_i m _
    by_cases hm : m ≤ D
    · rw [if_pos hm] at h
      cases h
      exact hm
    · rw [if_neg hm] at h
      cases h
  · cases h

/-- A cancellation within the deadline happens strictly before it. -/
theorem cancelIn_lt (D : Nat) (env : CaptureEnv) (c : Nat)
    (h : cancelIn D env = some c) : c < D := by
  unfold cancelIn at h
  split at h
  · rename_i m _
    by_cases hm : m < D
    · rw [if_pos hm] at h
      cases h
      exact hm
    · rw [if_neg hm] at h
      cases h
  · cases h

/-- Without a natural exit there is no natural exit within the deadline. -/
theorem natExitIn_of_none (D : Nat) (env : CaptureEnv) (h : env.procExitsAt = none) :
    natExitIn D env = none := by
  unfold natExitIn
  rw [h]

/-- Without a cancellation there is no cancellation within the deadline. -/
theorem cancelIn_of_none (D : Nat) (env : CaptureEnv) (h : env.cancelAt = none) :
    cancelIn D env = none := by
  unfold cancelIn
  rw [h]

/-- C6: every capture session requested with duration D leaves the Running
state no later than D plus the grace period, on each of the three exit
paths (natural subprocess completion, deadline expiry with graceful then
forced termination, external cancellation); a session that is timed out is
Completed, a success and not a failure, and the pure deadline path with no
natural exit and no cancellation completes with the timed-out flag set. -/
theorem capture_deadline_property (D : Nat) (channel : Option Nat) (env : CaptureEnv) :
    (capture D channel env).endTime ≤ D + gracePeriod ∧
    (capture D channel env).status ≠ .Running ∧
    (capture D channel env).status ≠ .Pending ∧
    ((capture D channel env).timedOut = true → (capture D channel env).status = .Completed) ∧
    ((channel.isSome = true → env.channelSetOk = true) → env.procExitsAt = none →
      env.cancelAt = none →
      (capture D channel env).status = .Completed ∧ (capture D channel env).timedOut = true) := by
  unfold capture
  by_cases hch : channel.isSome ∧ ¬env.channelSetOk
  · rw [if_pos hch]
    exact ⟨by simp [channelFailOutcome], by simp [channelFailOutcome],
      by simp [channelFailOutcome], by simp [channelFailOutcome],
      fun hc _ _ => absurd (hc hch.1) hch.2⟩
  · rw [if_neg hch]
    rcases hnat : natExitIn D env with _ | n <;> rcases hcan : cancelIn D env with _ | c
    · refine ⟨?_, by simp [deadlineOutcome], by simp [deadlineOutcome],
        fun _ => by simp [deadlineOutcome],
        fun _ _ _ => ⟨by simp [deadlineOutcome], by simp [deadlineOutcome]⟩⟩
      unfold deadlineOutcome
      dsimp
      split <;> omega
    · have hcd := cancelIn_lt D env c hcan
      refine ⟨by simp only [cancelOutcome]; omega, by simp [cancelOutcome],
        by simp [cancelOutcome], fun ht => by simp [cancelOutcome] at ht, ?_⟩
      intro _ _ hca
      rw [cancelIn_of_none D env hca] at hcan
      cases hcan
    · have hnd := natExitIn_le D env n hnat
      refine ⟨by simp only [natExitOutcome]; omega, ?_, ?_,
        fun ht => by simp [natExitOutcome] at ht, ?_⟩
      · unfold natExitOutcome
        dsimp
        split <;> simp
      · unfold natExitOutcome
        dsimp
        split <;> simp
      · intro _ hpe _
        rw [natExitIn_of_none D env hpe] at hnat
        cases hnat
    · have hnd := natExitIn_le D env n hnat
      have hcd := cancelIn_lt D env c hcan
      dsimp only
      by_cases hnc : n ≤ c
      · rw [if_pos hnc]
        refine ⟨by simp only [natExitOutcome]; omega, ?_, ?_,
          fun ht => by simp [natExitOutcome] at ht, ?_⟩
        · unfold natExitOutcome
          dsimp
          split <;> simp
        · unfold natExitOutcome
          dsimp
          split <;> simp
        · intro _ hpe _
          rw [natExitIn_of_none D env hpe] at hnat
          cases hnat
      · rw [if_neg hnc]
        refine ⟨by simp only [cancelOutcome]; omega, by simp [cancelOutcome],
          by simp [cancelOutcome], fun ht => by simp [cancelOutcome] at ht, ?_⟩
        intro _ _ hca
        rw [cancelIn_of_none D env hca] at hcan
        cases hcan

/-- Environment of a capture that runs into its deadline: no natural exit,
no cancellation, channel set succeeding. -/
def exDeadlineEnv : CaptureEnv :=
  { channelSetOk := true, procExitsAt := none, procExitCode := 0, cancelAt := none,
    gracefulStopWorks := true }

/-- Witness for C6: a 30-second capture with no natural exit and no
cancellation leaves Running within the deadline plus grace, timed out and
Completed. -/
theorem capture_deadline_property_witness :
    (capture 30 none exDeadlineEnv).endTime ≤ 30 + gracePeriod ∧
    (capture 30 none exDeadlineEnv).status = .Completed ∧
    (capture 30 none exDeadlineEnv).timedOut = true := by
  obtain ⟨h1, _, _, _, h5⟩ := capture_deadline_property 30 none exDeadlineEnv
  obtain ⟨hs, ht⟩ := h5 (fun _ => rfl) rfl rfl
  exact ⟨h1, hs, ht⟩

/-- C7: every capture session ends in a terminal state (Completed,
Cancelled or Failed) with no capture subprocess still running, process
handles and file descriptors released, the output file closed on every
exit path, and on Cancelled the output file also valid (flushed and
closed, a well-formed capture). -/
theorem capture_no_orphan (D : Nat) (channel : Option Nat) (env : CaptureEnv) :
    ((capture D channel env).status = .Completed ∨
      (capture D channel env).status = .Cancelled ∨
      (capture D channel env).status = .Failed) ∧
    (capture D channel env).procRunning = false ∧
    (capture D channel env).handlesReleased = true ∧
    (capture D channel env).fileClosed = true ∧
    ((capture D channel env).status = .Cancelled →
      (capture D channel env).fileValid = true) := by
  unfold capture
  by_cases hch : channel.isSome ∧ ¬env.channelSetOk
  · rw [if_pos hch]
    exact ⟨Or.inr (Or.inr rfl), rfl, rfl, rfl,
      fun h => by simp [channelFailOutcome] at h⟩
  · rw [if_neg hch]
    rcases hnat : natExitIn D env with _ | n <;> rcases hcan : cancelIn D env with _ | c
    · exact ⟨Or.inl rfl, rfl, rfl, rfl, fun h => by simp [deadlineOutcome] at h⟩
    · exact ⟨Or.inr (Or.inl rfl), rfl, rfl, rfl, fun _ => rfl⟩
    · dsimp only
      refine ⟨?_, rfl, rfl, rfl, ?_⟩
      · by_cases he : env.procExitCode = 0
        · exact Or.inl (by simp [natExitOutcome, he])
        · exact Or.inr (Or.inr (by simp [natExitOutcome, he]))
      · intro h
        unfold natExitOutcome at h
        dsimp at h
        split at h <;> cases h
    · dsimp only
      by_cases hnc : n ≤ c
      · rw [if_pos hnc]
        refine ⟨?_, rfl, rfl, rfl, ?_⟩
        · by_cases he : env.procExitCode = 0
          · exact Or.inl (by simp [natExitOutcome, he])
          · exact Or.inr (Or.inr (by simp [natExitOutcome, he]))
        · intro h
          unfold natExitOutcome at h
          dsimp at h
          split at h <;> cases h
      · rw [if_neg hnc]
        exact ⟨Or.inr (Or.inl rfl), rfl, rfl, rfl, fun _ => rfl⟩

/-- Environment of spec scenario 3: a 30-second capture cancelled
externally at 10 seconds. -/
def exCancelEnv : CaptureEnv :=
  { channelSetOk := true, procExitsAt := none, procExitCode := 0, cancelAt := some 10,
    gracefulStopWorks := true }

/-- Witness for C7 at scenario 3: cancellation at 10 seconds of a
30-second capture leaves a Cancelled session, no running subprocess, and a
closed, valid output file. -/
theorem capture_no_orphan_witness :
    (capture 30 none exCancelEnv).status = .Cancelled ∧
    (capture 30 none exCancelEnv).procRunning = false ∧
    (capture 30 none exCancelEnv).fileClosed = true ∧
    (capture 30 none exCancelEnv).fileValid = true := by
  obtain ⟨_, h2, _, h4, h5⟩ := capture_no_orphan 30 none exCancelEnv
  have hst : (capture 30 none exCancelEnv).status = .Cancelled := by decide
  exact ⟨hst, h2, h4, h5 hst⟩

/-- C8: a `run` with a timeout that the child process exceeds forcibly
terminates the child and returns the explicit timed-out status (the
function is total, so the call reports the status rather than throwing);
and a capture whose requested channel-set command fails never launches the
capture subprocess: it fails fast with status Failed and reason
ChannelSetFailed. -/
theorem run_timeout_and_channel_failfast (p : ProcSpec) (t D ch : Nat)
    (env : CaptureEnv) (hres : p.resolvable = true) (ht : t < p.exitsAt)
    (hcs : env.channelSetOk = false) :
    (run p (some t)).status = .timedOut ∧
    (run p (some t)).childTerminated = true ∧
    (capture D (some ch) env).status = .Failed ∧
    (capture D (some ch) env).reason = some .ChannelSetFailed ∧
    (capture D (some ch) env).launched = false := by
  have hrun : run p (some t) =
      { status := .timedOut, childTerminated := true,
        stdout := p.stdout, stderr := p.stderr } := by
    unfold run
    rw [if_neg (by simp [hres])]
    dsimp only
    rw [if_pos ht]
  have hcap : capture D (some ch) env = channelFailOutcome := by
    unfold capture
    rw [if_pos ⟨rfl, by simp [hcs]⟩]
  rw [hrun, hcap]
  exact ⟨rfl, rfl, rfl, rfl, rfl⟩

/-- A resolvable process that would exit at time 100, used in witnesses. -/
def exProc : ProcSpec :=
  { resolvable := true, exitsAt := 100, exitCode := 0, stdout := "", stderr := "" }

/-- Environment whose channel-set command fails, used in witnesses. -/
def exBadChannelEnv : CaptureEnv :=
  { channelSetOk := false, procExitsAt := some 5, procExitCode := 0, cancelAt := none,
    gracefulStopWorks := true }

/-- Witness for C8: a run with timeout 30 of a process exiting at 100
times out with the child terminated, and a capture on channel 6 with a
failing channel-set fails fast without launching. -/
theorem run_timeout_and_channel_failfast_witness :
    (run exProc (some 30)).status = .timedOut ∧
    (run exProc (some 30)).childTerminated = true ∧
    (capture 45 (some 6) exBadChannelEnv).status = .Failed ∧
    (capture 45 (some 6) exBadChannelEnv).reason = some .ChannelSetFailed ∧
    (capture 45 (some 6) exBadChannelEnv).launched = false :=
  run_timeout_and_channel_failfast exProc 30 45 6 exBadChannelEnv rfl (by decide) rfl

/-! ## Claim theorems for remark-modified-time -/

/-- Shape lemma: the transformer either leaves the file unchanged or only
replaces the `lastModified` frontmatter field, and never touches the tree. -/
theorem remarkModifiedTime_shape (env : FsEnv) (tree : α) (file : VFile) :
    remarkModifiedTime env tree file = (tree, file) ∨
    ∃ lm : String, remarkModifiedTime env tree file =
      (tree, { file with data.astro.frontmatter.lastModified := some lm }) := by
  unfold remarkModifiedTime
  dsimp only
  rcases env.gitLogOut (file.history.headD "") with _ | s
  · rcases env.statMtimeISO (file.history.headD "") with _ | m
    · exact Or.inl rfl
    · dsimp only
      by_cases hm : m ≠ ""
      · rw [if_pos hm]
        exact Or.inr ⟨m, rfl⟩
      · rw [if_neg hm]
        exact Or.inl rfl
  · dsimp only
    by_cases hs : jsTrim s ≠ ""
    · rw [if_pos hs]
      exact Or.inr ⟨jsTrim s, rfl⟩
    · rw [if_neg hs]
      exact Or.inl rfl

/-- C9: the transformer is total and swallows both errors: on any file for
which the git-log invocation throws and the statSync fallback also throws,
nothing is written, lastModified and every other field of the file stay as
they were, and the tree is untouched; being a total Lean function, the
embedded transformer cannot throw. -/
theorem remarkModifiedTime_swallows_failures (env : FsEnv) (tree : α) (file : VFile)
    (hg : env.gitLogOut (file.history.headD "") = none)
    (hs : env.statMtimeISO (file.history.headD "") = none) :
    remarkModifiedTime env tree file = (tree, file) := by
  unfold remarkModifiedTime
  dsimp only
  rw [hg, hs]

/-- Environment in which both the git invocation and statSync throw. -/
def failEnv : FsEnv := { gitLogOut := fun _ => none, statMtimeISO := fun _ => none }

/-- A concrete vfile, its frontmatter carrying sibling-plugin data. -/
def exFile : VFile :=
  { history := ["src/content/blog/post.md"],
    data := { astro := { frontmatter := { lastModified := none,
                                          minutesRead := some "3 min read" } } } }

/-- Witness for C9: with both calls failing on a concrete file, the
transformer returns the tree and file unchanged. -/
theorem remarkModifiedTime_swallows_failures_witness :
    remarkModifiedTime failEnv (0 : Nat) exFile = ((0 : Nat), exFile) :=
  remarkModifiedTime_swallows_failures failEnv (0 : Nat) exFile rfl rfl

/-- Environment in which the git invocation succeeds with empty output
(as `git log -1` does for a file with no commit history, e.g. untracked),
while statSync would succeed. -/
def emptyGitEnv : FsEnv :=
  { gitLogOut := fun _ => some "",
    statMtimeISO := fun _ => some "2024-01-01T00:00:00.000Z" }

/-- Counterexample to C10 as stated: the git-log command succeeds (with
empty output, so the trimmed output is the empty string), yet
`frontmatter.lastModified` is not set to that trimmed output; the source
guards the write with JavaScript truthiness, so an empty trimmed string is
never written. -/
theorem remarkModifiedTime_empty_git_counterexample :
    emptyGitEnv.gitLogOut (exFile.history.headD "") = some "" ∧
    jsTrim "" = "" ∧
    (remarkModifiedTime emptyGitEnv (0 : Nat) exFile).2.data.astro.frontmatter.lastModified
      ≠ some (jsTrim "") := by
  refine ⟨rfl, rfl, ?_⟩
  decide

/-- C10 (amended): whenever the git-log command succeeds with an output
whose trimmed form is nonempty, `frontmatter.lastModified` is set to that
trimmed output; when git succeeds but the trimmed output is empty the file
is left unchanged; the statSync mtime is consulted only when the git
command throws (the result does not depend on it when git succeeds), and
when git throws and statSync yields a nonempty ISO string that string is
written; the function writes only `file.data.astro.frontmatter.lastModified`
and leaves the syntax tree and all other file fields unchanged. -/
theorem remarkModifiedTime_git_precedence (env : FsEnv) (tree : α) (file : VFile) :
    (∀ s, env.gitLogOut (file.history.headD "") = some s → jsTrim s ≠ "" →
      (remarkModifiedTime env tree file).2.data.astro.frontmatter.lastModified
        = some (jsTrim s)) ∧
    (∀ s, env.gitLogOut (file.history.headD "") = some s → jsTrim s = "" →
      (remarkModifiedTime env tree file).2 = file) ∧
    (∀ stat2 : String → Option String, (env.gitLogOut (file.history.headD "")).isSome = true →
      remarkModifiedTime { gitLogOut := env.gitLogOut, statMtimeISO := stat2 } tree file
        = remarkModifiedTime env tree file) ∧
    (env.gitLogOut (file.history.headD "") = none →
      ∀ m, env.statMtimeISO (file.history.headD "") = some m → m ≠ "" →
        (remarkModifiedTime env tree file).2.data.astro.frontmatter.lastModified = some m) ∧
    (remarkModifiedTime env tree file).1 = tree ∧
    (remarkModifiedTime env tree file).2 =
      { file with data.astro.frontmatter.lastModified :=
          (remarkModifiedTime env tree file).2.data.astro.frontmatter.lastModified } := by
  refine ⟨?_, ?_, ?_, ?_, ?_, ?_⟩
  · intro s hs hne
    unfold remarkModifiedTime
    dsimp only
    rw [hs]
    dsimp only
    rw [if_pos hne]
  · intro s hs he
    unfold remarkModifiedTime
    dsimp only
    rw [hs]
    dsimp only
    rw [he, if_neg (by simp)]
  · intro stat2 hsome
    obtain ⟨s, hs⟩ := Option.isSome_iff_exists.mp hsome
    unfold remarkModifiedTime
    dsimp only
    rw [hs]
  · intro hg m hm hne
    unfold remarkModifiedTime
    dsimp only
    rw [hg, hm]
    dsimp only
    rw [if_pos hne]
  · rcases remarkModifiedTime_shape env tree file with h | ⟨lm, h⟩ <;> rw [h]
  · rcases remarkModifiedTime_shape env tree file with h | ⟨lm, h⟩ <;> rw [h]

/-- Environment in which git succeeds with a nonempty commit date. -/
def gitEnv : FsEnv :=
  { gitLogOut := fun _ => some "2023-05-01T10:00:00+02:00\n",
    statMtimeISO := fun _ => none }

/-- Witness for the amended C10: a successful git call with a nonempty
trimmed date writes exactly that date, the tree is untouched, and the file
differs from the input only in the lastModified field. -/
theorem remarkModifiedTime_git_precedence_witness :
    (remarkModifiedTime gitEnv (0 : Nat) exFile).2.data.astro.frontmatter.lastModified
      = some (jsTrim "2023-05-01T10:00:00+02:00\n") ∧
    (remarkModifiedTime gitEnv (0 : Nat) exFile).1 = 0 ∧
    remarkModifiedTime { gitLogOut := gitEnv.gitLogOut, statMtimeISO := fun _ => some "x" }
        (0 : Nat) exFile
      = remarkModifiedTime gitEnv (0 : Nat) exFile := by
  obtain ⟨h1, _, h3, _, h5, _⟩ := remarkModifiedTime_git_precedence gitEnv (0 : Nat) exFile
  exact ⟨h1 "2023-05-01T10:00:00+02:00\n" rfl (by decide), h5,
    h3 (fun _ => some "x") rfl⟩
